import Mathlib

/-!
Verification of the response-normalization and rendering core of the
DataWare chatbot frontend (`src/components/Page.jsx` and
`src/components/DataTable.jsx`).

The JavaScript source is shallowly embedded: JSON values become an
inductive `Json`, JS truthiness and the `x || default` idiom become
`truthy` / `jsOr`, the `handleSendMessage` handler becomes the pure
state-transition function `sendMessage`, and the DataTable sorting,
filtering and column derivation become `sortedData`, `filteredData`
and `columns`.  `Array.prototype.sort` (stable since ES2019) is
modelled by `List.mergeSort`, which is a stable merge sort.
-/

namespace DwhChatbot

/-- A JSON value as delivered by `response.json()`.  Numbers are modelled
as rationals (no floating-point arithmetic is performed on them by the
frontend; they are only tested for truthiness and copied around). -/
inductive Json where
  | null
  | bool (b : Bool)
  | num (n : ℚ)
  | str (s : String)
  | arr (elems : List Json)
  | obj (fields : List (String × Json))

/-- JS truthiness of a JSON value: `null`, `false`, `0` and `""` are
falsy; arrays and objects are always truthy. -/
def truthy : Json → Bool
  | Json.null => false
  | Json.bool b => b
  | Json.num n => decide (n ≠ 0)
  | Json.str s => decide (s ≠ "")
  | Json.arr _ => true
  | Json.obj _ => true

/-- Field access `payload.k`: `none` models JS `undefined` (field absent
or receiver not an object). -/
def getField : Json → String → Option Json
  | Json.obj fields, k => (fields.find? (fun p => p.1 == k)).map (fun p => p.2)
  | _, _ => none

/-- The JS idiom `v || d`: the value if present and truthy, otherwise the
default. -/
def jsOr (o : Option Json) (d : Json) : Json :=
  match o with
  | some v => if truthy v then v else d
  | none => d

/-- JS truthiness of a possibly-absent value (`undefined` is falsy). -/
def optTruthy (o : Option Json) : Bool :=
  match o with
  | some v => truthy v
  | none => false

/-- The assistant message record built by `handleSendMessage`
(`Page.jsx` lines 357-401).  The `role` tag is carried by the `Msg`
wrapper below and the timestamp (wall-clock `new Date()`) is not
modelled. -/
structure AMsg where
  message : Json
  resolvable : Bool
  result_type : Json
  query : Json
  chart_data : Json
  result : Json
  workflow_steps : Json
  execution_time : Json

/-- Normalization of one raw backend payload into an assistant message,
translated from the three branches of `handleSendMessage`
(`Page.jsx` lines 357-401). -/
def normalize (payload : Json) : AMsg :=
  if optTruthy (getField payload "success") && optTruthy (getField payload "resolvable") then
    { message := jsOr (getField payload "message") (Json.str "Here is the result of your query:")
      resolvable := true
      result_type := jsOr (getField payload "result_type") (Json.str "unknown")
      query := jsOr (getField payload "query") (Json.str "")
      chart_data := jsOr (getField payload "chart_data") Json.null
      result := jsOr (getField payload "result") Json.null
      workflow_steps := jsOr (getField payload "workflow_steps") (Json.arr [])
      execution_time := jsOr (getField payload "execution_time") (Json.num 0) }
  else if optTruthy (getField payload "success") && !optTruthy (getField payload "resolvable") then
    { message := jsOr (getField payload "message")
        (Json.str "I couldn't resolve that query with the available data.")
      resolvable := false
      result_type := Json.null
      query := jsOr (getField payload "query") (Json.str "")
      chart_data := Json.null
      result := Json.null
      workflow_steps := jsOr (getField payload "workflow_steps") (Json.arr [])
      execution_time := jsOr (getField payload "execution_time") (Json.num 0) }
  else
    { message := jsOr (getField payload "message")
        (Json.str "Sorry, I encountered an error while processing your request.")
      resolvable := false
      result_type := Json.null
      query := Json.str ""
      chart_data := Json.null
      result := Json.null
      workflow_steps := Json.arr []
      execution_time := jsOr (getField payload "execution_time") (Json.num 0) }

/-- The fixed connectivity-failure message built in the `catch` block of
`handleSendMessage` (`Page.jsx` lines 412-433). -/
def connectivityMsg : AMsg :=
  { message := Json.str "Sorry, I couldn't connect to the backend service. Please make sure the query generation service is running on port 5001."
    resolvable := false
    result_type := Json.null
    query := Json.str ""
    chart_data := Json.null
    result := Json.null
    workflow_steps := Json.arr []
    execution_time := Json.num 0 }

/-- A chat message: either a user turn (plain content) or an assistant
turn produced by the normalizer. -/
inductive Msg where
  | user (content : String)
  | assistant (m : AMsg)

/-- One chat thread as stored in `chatHistory` (`Page.jsx`). -/
structure Chat where
  id : String
  title : String
  messages : List Msg

/-- Outcome of the outbound request: either a decoded JSON payload, or a
network-level failure (the fetch threw, the status was non-2xx — the
code throws on `!response.ok` — or the body was not valid JSON). -/
inductive NetResult where
  | ok (payload : Json)
  | fail

/-- Title truncation from `Page.jsx` lines 324-327:
`content.slice(0, 30) + (content.length > 30 ? "..." : "")`. -/
def truncateTitle (content : String) : String :=
  content.take 30 ++ (if content.length > 30 then "..." else "")

/-- `setChatHistory` update appending one message to every chat whose id
matches (`Page.jsx` lines 306-312 and 405-411). -/
def appendToChat (id : String) (m : Msg) (l : List Chat) : List Chat :=
  l.map (fun c => if c.id == id then { c with messages := c.messages ++ [m] } else c)

/-- `setChatHistory` update setting the title of every chat whose id
matches (`Page.jsx` lines 319-330). -/
def renameChat (id : String) (title : String) (l : List Chat) : List Chat :=
  l.map (fun c => if c.id == id then { c with title := title } else c)

/-- The assistant message the handler appends for a settled request.  A
`null` JSON body makes `payload.success` throw a TypeError inside the
`try` block, landing in the same `catch` as a network failure. -/
def responseMsg : NetResult → AMsg
  | NetResult.ok Json.null => connectivityMsg
  | NetResult.ok payload => normalize payload
  | NetResult.fail => connectivityMsg

/-- The full state transition of `handleSendMessage` (`Page.jsx` lines
296-437) for one settled submission: guard on an empty (falsy)
`currentChatId`, append the user message, rename the thread when it had
zero messages before this submission (the check reads the pre-append
`chatHistory` closure), then append exactly one assistant message in
both the success and the failure branch. -/
def sendMessage (history : List Chat) (currentId : String) (content : String)
    (net : NetResult) : List Chat :=
  if currentId = "" then history
  else
    appendToChat currentId (Msg.assistant (responseMsg net))
      (if (history.find? (fun c => c.id == currentId)).map (fun c => c.messages.length)
            = some 0 then
        renameChat currentId (truncateTitle content)
          (appendToChat currentId (Msg.user content) history)
      else appendToChat currentId (Msg.user content) history)

/-- JS `text.split(' ')` on the character list: split on every single
space, keeping empty fragments; the empty string yields one (empty)
token, matching `"".split(' ') == [""]`. -/
def splitSpaces : List Char → List (List Char)
  | [] => [[]]
  | c :: rest =>
    if c = ' ' then [] :: splitSpaces rest
    else
      match splitSpaces rest with
      | [] => [[c]]
      | w :: ws => (c :: w) :: ws

/-- The token list of a message content, as computed by `TypingText`
(`Page.jsx` line 13: `const words = text.split(' ')`). -/
def wordsOf (text : String) : List (List Char) :=
  splitSpaces text.toList

/-- The reveal state machine of `TypingText`/`AssistantMessage`: each
tick reveals one token; after `(wordsOf text).length` ticks
`currentWordIndex < words.length` fails, `isComplete` is set and
`onComplete` fires (`Page.jsx` lines 15-36), putting the message in the
Revealed state. -/
def revealComplete (text : String) (ticks : Nat) : Bool :=
  decide ((wordsOf text).length ≤ ticks)

/-- JS strict equality `j === s` between a JSON value and a string
literal. -/
def jsEqStr (j : Json) (s : String) : Bool :=
  match j with
  | Json.str t => t == s
  | _ => false

/-- What `AssistantMessage` renders besides the animated text
(`Page.jsx` lines 186-230): `canShowChart`, `canShowTable`, and the
`QueryDetails` panel, which itself returns `null` unless the message is
resolvable and carries a query (`Page.jsx` line 63). -/
structure AssistantView where
  showChart : Bool
  showTable : Bool
  showDetails : Bool

/-- The visible structured content of an assistant message whose typing
animation has consumed `ticks` tokens of `text`. -/
def assistantView (m : AMsg) (text : String) (ticks : Nat) : AssistantView :=
  { showChart := revealComplete text ticks && jsEqStr m.result_type "chart" && truthy m.chart_data
    showTable := revealComplete text ticks && jsEqStr m.result_type "table" && truthy m.result
    showDetails := revealComplete text ticks && m.resolvable && truthy m.query }

/-- A scalar cell value of a table row.  Numbers are modelled as
integers: the comparator only uses their ordering and `String(value)`
only their decimal form, neither of which the claims exercise on
non-integers. -/
inductive Value where
  | vnull
  | vnum (n : Int)
  | vstr (s : String)
  | vbool (b : Bool)
deriving DecidableEq

/-- A table row: a JS object, i.e. an ordered association list from keys
to scalar values (`Object.keys`/`Object.values` follow insertion
order). -/
abbrev Row : Type := List (String × Value)

/-- Property access `row[key]`: `none` models JS `undefined`. -/
def getVal (r : Row) (k : String) : Option Value :=
  (r.find? (fun p => p.1 == k)).map (fun p => p.2)

/-- The JS loose check `value == null`, true for both `null` and
`undefined`. -/
def isNullish (o : Option Value) : Bool :=
  match o with
  | none => true
  | some Value.vnull => true
  | some _ => false

/-- JS `String(value)` on a scalar. -/
def valueToString : Value → String
  | Value.vnull => "null"
  | Value.vnum n => toString n
  | Value.vstr s => s
  | Value.vbool b => if b then "true" else "false"

/-- `String(value)` on a possibly-absent value (`String(undefined)`). -/
def optToString (o : Option Value) : String :=
  match o with
  | some v => valueToString v
  | none => "undefined"

/-- JS `s.toLowerCase()`, modelled as character-wise ASCII lowering. -/
def lowerStr (s : String) : String :=
  String.mk (s.toList.map Char.toLower)

/-- Sort direction of the DataTable (`sortConfig.direction`). -/
inductive Dir where
  | asc
  | desc
deriving DecidableEq

/-- `sortConfig` state of the DataTable (`DataTable.jsx` line 5). -/
structure SortConfig where
  key : Option String
  direction : Dir
deriving DecidableEq

/-- The row comparator of `sortedData` (`DataTable.jsx` lines 34-55) on
the two looked-up cell values: nullish values compare as `1`/`-1`
multiplied into the direction, two numbers compare numerically, and
anything else compares by case-insensitive string form. -/
def jsCompareVal (dir : Dir) (av bv : Option Value) : Int :=
  if isNullish av && isNullish bv then 0
  else if isNullish av then (if dir = Dir.asc then 1 else -1)
  else if isNullish bv then (if dir = Dir.asc then -1 else 1)
  else
    match av, bv with
    | some (Value.vnum x), some (Value.vnum y) =>
        if dir = Dir.asc then x - y else y - x
    | _, _ =>
        let aStr := lowerStr (optToString av)
        let bStr := lowerStr (optToString bv)
        if aStr < bStr then (if dir = Dir.asc then -1 else 1)
        else if bStr < aStr then (if dir = Dir.asc then 1 else -1)
        else 0

/-- The comparator applied to two rows for a given sort key. -/
def jsCompare (dir : Dir) (k : String) (a b : Row) : Int :=
  jsCompareVal dir (getVal a k) (getVal b k)

/-- The sorted view `sortedData` (`DataTable.jsx` lines 31-56): the
guard `if (!sortConfig.key) return tableData` is a JS falsy test, so
both a `null` key and the empty-string key leave the data unsorted;
otherwise a stable sort by the comparator (`Array.prototype.sort` is
stable; elements `a`, `b` keep their order exactly when the comparator
is non-positive, which is `List.mergeSort`'s ordering switch). -/
def sortedData (cfg : SortConfig) (data : List Row) : List Row :=
  match cfg.key with
  | none => data
  | some k =>
    if k = "" then data
    else data.mergeSort (fun a b => decide (jsCompare cfg.direction k a b ≤ 0))

/-- The header-click handler `handleSort` (`DataTable.jsx` lines 74-79):
a new key sorts ascending, the same key flips the direction. -/
def handleSort (column : String) (prev : SortConfig) : SortConfig :=
  { key := some column
    direction :=
      if prev.key = some column ∧ prev.direction = Dir.asc then Dir.desc else Dir.asc }

/-- Whether the needle list occurs at the start of the haystack list. -/
def startsWithList : List Char → List Char → Bool
  | [], _ => true
  | _ :: _, [] => false
  | a :: as, b :: bs => a == b && startsWithList as bs

/-- Whether the needle occurs anywhere in the haystack
(JS `String.prototype.includes`). -/
def hasSubList (needle : List Char) : List Char → Bool
  | [] => startsWithList needle []
  | c :: t => startsWithList needle (c :: t) || hasSubList needle t

/-- JS `haystack.includes(needle)` on strings. -/
def containsSub (haystack needle : String) : Bool :=
  hasSubList needle.toList haystack.toList

/-- One row of the free-text filter (`DataTable.jsx` lines 62-66):
`Object.values(row).some(v => String(v).toLowerCase().includes(term.toLowerCase()))`. -/
def rowMatches (term : String) (r : Row) : Bool :=
  r.any (fun kv => containsSub (lowerStr (valueToString kv.2)) (lowerStr term))

/-- The filtered view `filteredData` (`DataTable.jsx` lines 59-67):
identity for the empty (falsy) search term, otherwise keep the rows
some of whose values contain the term case-insensitively. -/
def filteredData (term : String) (l : List Row) : List Row :=
  if term = "" then l else l.filter (rowMatches term)

/-- The rendered column set (`DataTable.jsx` line 28):
`Object.keys(tableData[0])` — the keys of the first row only. -/
def columns (data : List Row) : List String :=
  match data with
  | [] => []
  | r :: _ => r.map (fun p => p.1)

/-- The union-of-keys column set in first-appearance order, written from
the spec's words ("treat the union of keys as the column set") for
comparison with the implemented `columns`. -/
def unionColumnsSpec (data : List Row) : List String :=
  data.foldl (fun acc r => acc ++ ((r.map (fun p => p.1)).filter (fun k => !acc.contains k))) []

/-- Cell rendering `formatValue` (`DataTable.jsx` lines 101-110): `-`
for null/absent, `Yes`/`No` for booleans, the decimal form for numbers
(locale digit grouping not modelled), the string itself otherwise. -/
def formatValue (o : Option Value) : String :=
  match o with
  | none => "-"
  | some Value.vnull => "-"
  | some (Value.vnum n) => toString n
  | some (Value.vbool b) => if b then "Yes" else "No"
  | some (Value.vstr s) => s

/-- The string rendered for column `c` of row `r`
(`formatValue(row[column])`, `DataTable.jsx` line 233). -/
def renderCell (r : Row) (c : String) : String :=
  formatValue (getVal r c)

end DwhChatbot

namespace DwhChatbot

/-- C1: for every raw backend payload, the normalization step yields
exactly one assistant message (`normalize` is a total function into
`AMsg`); a missing message text is replaced by one of the three canned
fallback strings, a missing `execution_time` defaults to `0`, and a
missing `workflow_steps` array defaults to the empty sequence. -/
theorem normalize_total_defaults (payload : Json) :
    (getField payload "message" = none →
      ((normalize payload).message = Json.str "Here is the result of your query:" ∨
       (normalize payload).message = Json.str "I couldn't resolve that query with the available data." ∨
       (normalize payload).message = Json.str "Sorry, I encountered an error while processing your request.")) ∧
    (getField payload "execution_time" = none →
      (normalize payload).execution_time = Json.num 0) ∧
    (getField payload "workflow_steps" = none →
      (normalize payload).workflow_steps = Json.arr []) := by
  refine ⟨?_, ?_, ?_⟩ <;> intro h <;> unfold normalize <;> split
  · left; rw [h]; rfl
  · split
    · right; left; rw [h]; rfl
    · right; right; rw [h]; rfl
  · rw [h]; rfl
  · split <;> rw [h] <;> rfl
  · rw [h]; rfl
  · split
    · rw [h]; rfl
    · rfl

/-- C1 witness: the empty object `{}` is normalized without failure, with
the error fallback text, zero timing and empty steps. -/
theorem normalize_total_defaults_witness :
    ((normalize (Json.obj [])).message = Json.str "Here is the result of your query:" ∨
     (normalize (Json.obj [])).message = Json.str "I couldn't resolve that query with the available data." ∨
     (normalize (Json.obj [])).message = Json.str "Sorry, I encountered an error while processing your request.") ∧
    (normalize (Json.obj [])).execution_time = Json.num 0 ∧
    (normalize (Json.obj [])).workflow_steps = Json.arr [] := by
  have h := normalize_total_defaults (Json.obj [])
  exact ⟨h.1 rfl, h.2.1 rfl, h.2.2 rfl⟩

/-- C3 counterexample: the payload
`{success:true, resolvable:true, message:"All done"}` carries a textual
message and no chart, table or text result descriptor, yet the code
classifies it as `"unknown"`, not `"summary"` — `handleSendMessage`
copies `payload.result_type || 'unknown'` and performs no shape-based
classification at all. -/
theorem normalize_no_summary_default :
    (normalize (Json.obj [("success", Json.bool true), ("resolvable", Json.bool true),
        ("message", Json.str "All done")])).result_type = Json.str "unknown" ∧
    (normalize (Json.obj [("success", Json.bool true), ("resolvable", Json.bool true),
        ("message", Json.str "All done")])).result_type ≠ Json.str "summary" := by
  refine ⟨rfl, ?_⟩
  intro h
  have h2 : "unknown" = "summary" := by
    have h1 : Json.str "unknown" = Json.str "summary" := h
    injection h1
  simp at h2

/-- C3 amended: for a successful, resolvable payload the normalization
step takes `result_type` verbatim from the payload's `result_type`
field when that field is truthy, and defaults to the string `"unknown"`
when the field is absent or present but falsy (`null`, `""`, `0`,
`false`); no `summary` classification is performed. -/
theorem normalize_result_type_passthrough (payload : Json)
    (hs : optTruthy (getField payload "success") = true)
    (hr : optTruthy (getField payload "resolvable") = true) :
    (getField payload "result_type" = none →
      (normalize payload).result_type = Json.str "unknown") ∧
    (∀ v, getField payload "result_type" = some v → truthy v = true →
      (normalize payload).result_type = v) ∧
    (∀ v, getField payload "result_type" = some v → truthy v = false →
      (normalize payload).result_type = Json.str "unknown") := by
  refine ⟨?_, ?_, ?_⟩
  · intro h
    unfold normalize
    rw [hs, hr]
    simp [jsOr, h]
  · intro v hv htv
    unfold normalize
    rw [hs, hr]
    simp [jsOr, hv, htv]
  · intro v hv htv
    unfold normalize
    rw [hs, hr]
    simp [jsOr, hv, htv]

/-- C3 amended witness: a successful resolvable payload with no
`result_type` field gets `"unknown"`, one carrying
`result_type:"table"` keeps `"table"`, and one carrying the falsy
`result_type:null` gets `"unknown"`. -/
theorem normalize_result_type_passthrough_witness :
    (normalize (Json.obj [("success", Json.bool true),
        ("resolvable", Json.bool true)])).result_type = Json.str "unknown" ∧
    (normalize (Json.obj [("success", Json.bool true), ("resolvable", Json.bool true),
        ("result_type", Json.str "table")])).result_type = Json.str "table" ∧
    (normalize (Json.obj [("success", Json.bool true), ("resolvable", Json.bool true),
        ("result_type", Json.null)])).result_type = Json.str "unknown" := by
  refine ⟨?_, ?_, ?_⟩
  · exact (normalize_result_type_passthrough
      (Json.obj [("success", Json.bool true), ("resolvable", Json.bool true)]) rfl rfl).1 rfl
  · exact (normalize_result_type_passthrough
      (Json.obj [("success", Json.bool true), ("resolvable", Json.bool true),
        ("result_type", Json.str "table")]) rfl rfl).2.1 (Json.str "table") rfl (by decide)
  · exact (normalize_result_type_passthrough
      (Json.obj [("success", Json.bool true), ("resolvable", Json.bool true),
        ("result_type", Json.null)]) rfl rfl).2.2 Json.null rfl rfl

/-- Updating only matching chats commutes with looking the chat up by id,
provided the update preserves the id. -/
theorem find?_map_ite (l : List Chat) (id : String) (f : Chat → Chat)
    (hf : ∀ c, (f c).id = c.id) :
    (l.map (fun c => if c.id == id then f c else c)).find? (fun c => c.id == id) =
      (l.find? (fun c => c.id == id)).map (fun c => if c.id == id then f c else c) := by
  have hkeep : ∀ c : Chat, (if c.id == id then f c else c).id = c.id := by
    intro c
    by_cases h : c.id == id
    · rw [if_pos h, hf]
    · rw [if_neg h]
  have hp : ((fun c => c.id == id) ∘ fun c => if c.id == id then f c else c)
      = (fun c => c.id == id) := by
    funext c
    show ((if c.id == id then f c else c).id == id) = (c.id == id)
    rw [hkeep]
  rw [List.find?_map, hp]

/-- Looking up the current chat after `appendToChat`. -/
theorem find?_appendToChat (l : List Chat) (id : String) (m : Msg) (t : Chat)
    (ht : l.find? (fun c => c.id == id) = some t) :
    (appendToChat id m l).find? (fun c => c.id == id) =
      some { t with messages := t.messages ++ [m] } := by
  unfold appendToChat
  rw [find?_map_ite l id (fun c => { c with messages := c.messages ++ [m] }) (fun c => rfl), ht]
  have hid := List.find?_some (p := fun (c : Chat) => c.id == id) ht
  simp only [Option.map_some']
  rw [if_pos hid]

/-- Looking up the current chat after `renameChat`. -/
theorem find?_renameChat (l : List Chat) (id : String) (title : String) (t : Chat)
    (ht : l.find? (fun c => c.id == id) = some t) :
    (renameChat id title l).find? (fun c => c.id == id) =
      some { t with title := title } := by
  unfold renameChat
  rw [find?_map_ite l id (fun c => { c with title := title }) (fun c => rfl), ht]
  have hid := List.find?_some (p := fun (c : Chat) => c.id == id) ht
  simp only [Option.map_some']
  rw [if_pos hid]

/-- Characterization of the originating thread after one settled
submission: the title is renamed exactly when the thread was empty, and
the messages grow by the user turn followed by one assistant turn. -/
theorem sendMessage_find (history : List Chat) (id content : String) (net : NetResult)
    (t : Chat) (hid : id ≠ "")
    (ht : history.find? (fun c => c.id == id) = some t) :
    (sendMessage history id content net).find? (fun c => c.id == id) =
      some { id := t.id
             title := if t.messages.length = 0 then truncateTitle content else t.title
             messages := t.messages ++ [Msg.user content, Msg.assistant (responseMsg net)] } := by
  unfold sendMessage
  rw [if_neg hid, ht]
  simp only [Option.map_some', Option.some.injEq]
  have h1 := find?_appendToChat history id (Msg.user content) t ht
  by_cases hz : t.messages.length = 0
  · rw [if_pos hz, if_pos hz]
    have h2 := find?_renameChat _ id (truncateTitle content) _ h1
    have h3 := find?_appendToChat _ id (Msg.assistant (responseMsg net)) _ h2
    rw [h3]
    simp
  · rw [if_neg hz, if_neg hz]
    have h3 := find?_appendToChat _ id (Msg.assistant (responseMsg net)) _ h1
    rw [h3]
    simp

/-- C4: when the request ends in a network-level failure the appended
assistant message is the fixed connectivity-failure message: it has
`resolvable = false`, `result_type = null` (the code's encoding of
`none`), and the fixed content string that names the expected backend
location ("... running on port 5001"). -/
theorem sendMessage_network_failure (history : List Chat) (id content : String)
    (t : Chat) (hid : id ≠ "")
    (ht : history.find? (fun c => c.id == id) = some t) :
    ∃ t', (sendMessage history id content NetResult.fail).find? (fun c => c.id == id) = some t' ∧
      t'.messages = t.messages ++ [Msg.user content, Msg.assistant connectivityMsg] ∧
      connectivityMsg.resolvable = false ∧
      connectivityMsg.result_type = Json.null ∧
      connectivityMsg.message = Json.str "Sorry, I couldn't connect to the backend service. Please make sure the query generation service is running on port 5001." := by
  exact ⟨_, sendMessage_find history id content NetResult.fail t hid ht, rfl, rfl, rfl, rfl⟩

/-- C4 witness: a failed request on the default seeded thread appends the
connectivity-failure assistant message after the user message. -/
theorem sendMessage_network_failure_witness :
    ∃ t', (sendMessage [⟨"1", "DataWare Assistant", []⟩] "1" "show sales" NetResult.fail).find?
        (fun c => c.id == "1") = some t' ∧
      t'.messages = [] ++ [Msg.user "show sales", Msg.assistant connectivityMsg] ∧
      connectivityMsg.resolvable = false ∧
      connectivityMsg.result_type = Json.null ∧
      connectivityMsg.message = Json.str "Sorry, I couldn't connect to the backend service. Please make sure the query generation service is running on port 5001." :=
  sendMessage_network_failure [⟨"1", "DataWare Assistant", []⟩] "1" "show sales"
    ⟨"1", "DataWare Assistant", []⟩ (by decide) rfl

/-- C5: every accepted submission appends to the originating thread
exactly the user message followed by exactly one assistant message —
one in the success branch (any payload, including a `null` body) and
one in the failure branch, never zero and never two. -/
theorem sendMessage_exactly_one_assistant (history : List Chat) (id content : String)
    (net : NetResult) (t : Chat) (hid : id ≠ "")
    (ht : history.find? (fun c => c.id == id) = some t) :
    ∃ t' a, (sendMessage history id content net).find? (fun c => c.id == id) = some t' ∧
      t'.messages = t.messages ++ [Msg.user content, Msg.assistant a] := by
  exact ⟨_, responseMsg net, sendMessage_find history id content net t hid ht, rfl⟩

/-- C5 witness: a successful submission with the empty payload appends
exactly one assistant message to the seeded thread. -/
theorem sendMessage_exactly_one_assistant_witness :
    ∃ t' a, (sendMessage [⟨"1", "DataWare Assistant", []⟩] "1" "hello"
        (NetResult.ok (Json.obj []))).find? (fun c => c.id == "1") = some t' ∧
      t'.messages = [] ++ [Msg.user "hello", Msg.assistant a] :=
  sendMessage_exactly_one_assistant [⟨"1", "DataWare Assistant", []⟩] "1" "hello"
    (NetResult.ok (Json.obj [])) ⟨"1", "DataWare Assistant", []⟩ (by decide) rfl

/-- C8: a submission changes the thread's title exactly when the thread
had zero messages before it, in which case the title becomes the
content truncated to its first 30 characters with `"..."` appended
exactly when the content is longer than 30 characters; the thread is
non-empty afterwards, and any later submission to the same thread
leaves the title unchanged. -/
theorem sendMessage_title_once (history : List Chat) (id content : String)
    (net : NetResult) (t : Chat) (hid : id ≠ "")
    (ht : history.find? (fun c => c.id == id) = some t) :
    ∃ t', (sendMessage history id content net).find? (fun c => c.id == id) = some t' ∧
      t'.title = (if t.messages.length = 0 then
        content.take 30 ++ (if content.length > 30 then "..." else "") else t.title) ∧
      t'.messages ≠ [] ∧
      (∀ content2 net2, ∃ t'',
        (sendMessage (sendMessage history id content net) id content2 net2).find?
          (fun c => c.id == id) = some t'' ∧ t''.title = t'.title) := by
  refine ⟨_, sendMessage_find history id content net t hid ht, rfl, by simp, ?_⟩
  intro content2 net2
  refine ⟨_, sendMessage_find _ id content2 net2 _ hid
    (sendMessage_find history id content net t hid ht), ?_⟩
  simp

/-- C8 witness: the first submission to the empty seeded thread renames
it to the truncated content, and a second submission keeps that title. -/
theorem sendMessage_title_once_witness :
    ∃ t', (sendMessage [⟨"1", "New Chat", []⟩] "1" "sales" NetResult.fail).find?
        (fun c => c.id == "1") = some t' ∧
      t'.title = (if ([] : List Msg).length = 0 then
        "sales".take 30 ++ (if "sales".length > 30 then "..." else "") else "New Chat") ∧
      t'.messages ≠ [] ∧
      (∀ content2 net2, ∃ t'',
        (sendMessage (sendMessage [⟨"1", "New Chat", []⟩] "1" "sales" NetResult.fail)
          "1" content2 net2).find? (fun c => c.id == "1") = some t'' ∧ t''.title = t'.title) :=
  sendMessage_title_once [⟨"1", "New Chat", []⟩] "1" "sales" NetResult.fail
    ⟨"1", "New Chat", []⟩ (by decide) rfl

/-- C7: while the typing animation is still running (`ticks` strictly
below the token count) no chart, table or query-details panel is
visible, regardless of the message's payload; and the transition to the
Revealed state fires after finitely many ticks for every content —
after exactly the token count — including the empty content, whose
single empty token completes after one tick rather than hanging. -/
theorem typing_suppresses_structured_content (m : AMsg) (text : String) (ticks : Nat) :
    (ticks < (wordsOf text).length →
      assistantView m text ticks = ⟨false, false, false⟩) ∧
    revealComplete text ((wordsOf text).length) = true ∧
    (∀ later, (wordsOf text).length ≤ later → revealComplete text later = true) ∧
    revealComplete "" 1 = true := by
  refine ⟨?_, ?_, ?_, ?_⟩
  · intro h
    have hc : revealComplete text ticks = false := by
      unfold revealComplete
      exact decide_eq_false (by omega)
    unfold assistantView
    rw [hc]
    simp
  · exact decide_eq_true (Nat.le_refl _)
  · intro later hl
    exact decide_eq_true hl
  · rfl

/-- C7 witness: for a table-carrying message with a two-token content,
nothing structured is visible after one tick; the two-token content and
the empty content both complete. -/
theorem typing_suppresses_structured_content_witness :
    (assistantView
      { message := Json.str "Here you go"
        resolvable := true
        result_type := Json.str "table"
        query := Json.str "SELECT 1"
        chart_data := Json.null
        result := Json.arr [Json.obj [("a", Json.num 1)]]
        workflow_steps := Json.arr []
        execution_time := Json.num 0 } "Here you go" 1 = ⟨false, false, false⟩) ∧
    revealComplete "Here you go" ((wordsOf "Here you go").length) = true ∧
    revealComplete "" 1 = true := by
  have h := typing_suppresses_structured_content
    { message := Json.str "Here you go"
      resolvable := true
      result_type := Json.str "table"
      query := Json.str "SELECT 1"
      chart_data := Json.null
      result := Json.arr [Json.obj [("a", Json.num 1)]]
      workflow_steps := Json.arr []
      execution_time := Json.num 0 } "Here you go" 1
  exact ⟨h.1 (by decide), h.2.1, h.2.2.2⟩

/-- C9: selecting a column that is not the current sort key sorts it
ascending; selecting the current key again flips the direction in both
states; and after selecting a fresh column and toggling twice the sort
configuration — hence the visible sorted order, a pure function of data
and configuration — is exactly the one of the first ascending sort. -/
theorem handleSort_toggle_roundtrip (data : List Row) (c : String) (prev : SortConfig)
    (h : prev.key ≠ some c) :
    handleSort c prev = ⟨some c, Dir.asc⟩ ∧
    handleSort c ⟨some c, Dir.asc⟩ = ⟨some c, Dir.desc⟩ ∧
    handleSort c ⟨some c, Dir.desc⟩ = ⟨some c, Dir.asc⟩ ∧
    sortedData (handleSort c (handleSort c (handleSort c prev))) data =
      sortedData (handleSort c prev) data := by
  have h1 : handleSort c prev = ⟨some c, Dir.asc⟩ := by
    unfold handleSort
    congr 1
    rw [if_neg]
    intro hc
    exact h hc.1
  have h2 : handleSort c ⟨some c, Dir.asc⟩ = ⟨some c, Dir.desc⟩ := by
    unfold handleSort
    congr 1
    rw [if_pos ⟨rfl, rfl⟩]
  have h3 : handleSort c ⟨some c, Dir.desc⟩ = ⟨some c, Dir.asc⟩ := by
    unfold handleSort
    congr 1
    rw [if_neg]
    rintro ⟨-, hd⟩
    exact Dir.noConfusion hd
  refine ⟨h1, h2, h3, ?_⟩
  rw [h1, h2, h3]

/-- C9 witness: starting from the initial configuration (no sort key),
selecting column `a` and double-toggling reproduces the ascending
order on a concrete two-row table. -/
theorem handleSort_toggle_roundtrip_witness :
    handleSort "a" ⟨none, Dir.asc⟩ = ⟨some "a", Dir.asc⟩ ∧
    handleSort "a" ⟨some "a", Dir.asc⟩ = ⟨some "a", Dir.desc⟩ ∧
    handleSort "a" ⟨some "a", Dir.desc⟩ = ⟨some "a", Dir.asc⟩ ∧
    sortedData (handleSort "a" (handleSort "a" (handleSort "a" ⟨none, Dir.asc⟩)))
        [[("a", Value.vnum 2)], [("a", Value.vnum 1)]] =
      sortedData (handleSort "a" ⟨none, Dir.asc⟩)
        [[("a", Value.vnum 2)], [("a", Value.vnum 1)]] :=
  handleSort_toggle_roundtrip [[("a", Value.vnum 2)], [("a", Value.vnum 1)]] "a"
    ⟨none, Dir.asc⟩ (by decide)

/-- C10: the free-text filter keeps a row exactly when the
case-insensitive search term occurs in the string form of at least one
of the row's own values — ranging over all of the row's keys, not just
the rendered column set derived from the first row. -/
theorem filteredData_mem_iff (data : List Row) (term : String) (row : Row)
    (h : term ≠ "") :
    row ∈ filteredData term data ↔
      row ∈ data ∧
        ∃ kv ∈ row, containsSub (lowerStr (valueToString kv.2)) (lowerStr term) = true := by
  unfold filteredData
  rw [if_neg h, List.mem_filter]
  unfold rowMatches
  rw [List.any_eq_true]

/-- C10 witness: the row `{a:2, c:"xyz"}` survives the filter for term
`"XYZ"` solely because of its `c` value, even though `c` is not among
the rendered columns (derived from the first row `{a:1}`). -/
theorem filteredData_mem_iff_witness :
    [("a", Value.vnum 2), ("c", Value.vstr "xyz")] ∈
      filteredData "XYZ" [[("a", Value.vnum 1)], [("a", Value.vnum 2), ("c", Value.vstr "xyz")]] ∧
    "c" ∉ columns [[("a", Value.vnum 1)], [("a", Value.vnum 2), ("c", Value.vstr "xyz")]] :=
  ⟨(filteredData_mem_iff [[("a", Value.vnum 1)], [("a", Value.vnum 2), ("c", Value.vstr "xyz")]]
      "XYZ" [("a", Value.vnum 2), ("c", Value.vstr "xyz")] (by decide)).mpr (by decide),
   by decide⟩

/-- C6 counterexample: for the rows `[{a:1}, {b:2}]` the rendered column
set is `["a"]`, the keys of the first row only — not the union
`["a","b"]` the claim prescribes — so the key `b` carried only by the
second row is never rendered. -/
theorem columns_not_union_cex :
    columns [[("a", Value.vnum 1)], [("b", Value.vnum 2)]] = ["a"] ∧
    unionColumnsSpec [[("a", Value.vnum 1)], [("b", Value.vnum 2)]] = ["a", "b"] ∧
    columns [[("a", Value.vnum 1)], [("b", Value.vnum 2)]] ≠
      unionColumnsSpec [[("a", Value.vnum 1)], [("b", Value.vnum 2)]] ∧
    "b" ∉ columns [[("a", Value.vnum 1)], [("b", Value.vnum 2)]] := by
  refine ⟨rfl, rfl, ?_, ?_⟩ <;> decide

/-- C6 amended: the Tabular Presenter derives the column set from the
first row's keys only; a cell whose key is missing from its row (or
holds `null`) renders as `-`. -/
theorem columns_first_row_and_dash (r0 : Row) (rest : List Row) (r : Row) (c : String)
    (h : getVal r c = none ∨ getVal r c = some Value.vnull) :
    columns (r0 :: rest) = r0.map (fun p => p.1) ∧
    renderCell r c = "-" := by
  refine ⟨rfl, ?_⟩
  unfold renderCell formatValue
  rcases h with h | h <;> rw [h]

/-- C6 amended witness: with rows `[{a:1}, {b:2}]`, the columns are the
first row's keys and the cell `a` of the second row renders `-`. -/
theorem columns_first_row_and_dash_witness :
    columns [[("a", Value.vnum 1)], [("b", Value.vnum 2)]] =
      ([("a", Value.vnum 1)] : Row).map (fun p => p.1) ∧
    renderCell [("b", Value.vnum 2)] "a" = "-" :=
  columns_first_row_and_dash [("a", Value.vnum 1)] [[("b", Value.vnum 2)]]
    [("b", Value.vnum 2)] "a" (Or.inl rfl)

/-- Sorting a two-element list reduces to one comparator call. -/
theorem mergeSort_pair {α : Type} (le : α → α → Bool) (a b : α) :
    List.mergeSort [a, b] le = if le a b then [a, b] else [b, a] := by
  rw [List.mergeSort]
  simp [List.cons_merge_cons]

/-- Merging preserves any transitive relation that refines the ordering
switch on both sides: `le a b` forces `p a b` and `¬ le a b` forces
`p b a`.  This is the sortedness argument of a stable merge without
requiring `le` itself to be transitive — the row comparator is not
transitive across mixed value types. -/
theorem merge_pairwise_imp {α : Type} (le : α → α → Bool) (p : α → α → Prop)
    (ptrans : ∀ a b c, p a b → p b c → p a c)
    (h1 : ∀ a b, le a b = true → p a b)
    (h2 : ∀ a b, le a b = false → p b a) :
    ∀ l₁ l₂ : List α, l₁.Pairwise p → l₂.Pairwise p → (List.merge l₁ l₂ le).Pairwise p := by
  intro l₁
  induction l₁ with
  | nil =>
    intro l₂ _ s₂
    simpa using s₂
  | cons x l₁ ih₁ =>
    intro l₂
    induction l₂ with
    | nil =>
      intro s₁ _
      simpa using s₁
    | cons y l₂ ih₂ =>
      intro s₁ s₂
      rw [List.cons_merge_cons]
      by_cases h : le x y = true
      · rw [if_pos h]
        apply List.Pairwise.cons
        · intro z hz
          rw [List.mem_merge] at hz
          rcases hz with hz | hz
          · exact List.rel_of_pairwise_cons s₁ hz
          · rcases List.mem_cons.mp hz with rfl | hz
            · exact h1 _ _ h
            · exact ptrans _ _ _ (h1 _ _ h) (List.rel_of_pairwise_cons s₂ hz)
        · exact ih₁ (y :: l₂) s₁.tail s₂
      · have hf : le x y = false := by
          revert h
          cases le x y <;> simp
        rw [if_neg h]
        apply List.Pairwise.cons
        · intro z hz
          rw [List.mem_merge] at hz
          rcases hz with hz | hz
          · rcases List.mem_cons.mp hz with rfl | hz
            · exact h2 _ _ hf
            · exact ptrans _ _ _ (h2 _ _ hf) (List.rel_of_pairwise_cons s₁ hz)
          · exact List.rel_of_pairwise_cons s₂ hz
        · exact ih₂ s₁ s₂.tail

/-- The output of the stable merge sort is pairwise ordered by any
transitive relation refining the ordering switch, whatever the input. -/
theorem mergeSort_pairwise_imp {α : Type} (le : α → α → Bool) (p : α → α → Prop)
    (ptrans : ∀ a b c, p a b → p b c → p a c)
    (h1 : ∀ a b, le a b = true → p a b)
    (h2 : ∀ a b, le a b = false → p b a) :
    ∀ l : List α, (l.mergeSort le).Pairwise p
  | [] => by simp
  | [a] => by simp
  | a :: b :: xs => by
    have hl1 : (List.splitInTwo ⟨a :: b :: xs, rfl⟩).1.1.length < xs.length + 1 + 1 := by
      simp [List.splitInTwo_fst]
      omega
    have hl2 : (List.splitInTwo ⟨a :: b :: xs, rfl⟩).2.1.length < xs.length + 1 + 1 := by
      simp [List.splitInTwo_snd]
      omega
    rw [List.mergeSort]
    exact merge_pairwise_imp le p ptrans h1 h2 _ _
      (mergeSort_pairwise_imp le p ptrans h1 h2 _)
      (mergeSort_pairwise_imp le p ptrans h1 h2 _)
termination_by l => l.length

/-- The comparator on a nullish left value against a defined right value
follows the direction. -/
theorem jsCompareVal_null_left (dir : Dir) (av bv : Option Value)
    (ha : isNullish av = true) (hb : isNullish bv = false) :
    jsCompareVal dir av bv = (if dir = Dir.asc then 1 else -1) := by
  unfold jsCompareVal
  rw [ha, hb]
  simp

/-- The comparator on a defined left value against a nullish right value
follows the direction. -/
theorem jsCompareVal_null_right (dir : Dir) (av bv : Option Value)
    (ha : isNullish av = false) (hb : isNullish bv = true) :
    jsCompareVal dir av bv = (if dir = Dir.asc then -1 else 1) := by
  unfold jsCompareVal
  rw [ha, hb]
  simp

/-- For a non-empty (truthy) sort key, `sortedData` is the merge sort by
the comparator. -/
theorem sortedData_some (k : String) (dir : Dir) (data : List Row) (hk : k ≠ "") :
    sortedData ⟨some k, dir⟩ data =
      data.mergeSort (fun a b => decide (jsCompare dir k a b ≤ 0)) := by
  show (if k = "" then data else _) = _
  rw [if_neg hk]

/-- C2 counterexample: sorting the spec's own scenario rows
`[{a:1,b:"x"}, {a:null,b:"y"}]` by `a` descending puts the null row
FIRST, not last — the comparator returns `-1` for a nullish left value
in descending direction, so missing-ness follows the direction instead
of being direction-invariant. -/
theorem sortedData_desc_null_first_cex :
    sortedData ⟨some "a", Dir.desc⟩
        [[("a", Value.vnum 1), ("b", Value.vstr "x")],
         [("a", Value.vnull), ("b", Value.vstr "y")]] =
      [[("a", Value.vnull), ("b", Value.vstr "y")],
       [("a", Value.vnum 1), ("b", Value.vstr "x")]] ∧
    ¬ (sortedData ⟨some "a", Dir.desc⟩
        [[("a", Value.vnum 1), ("b", Value.vstr "x")],
         [("a", Value.vnull), ("b", Value.vstr "y")]]).Pairwise
        (fun a b => isNullish (getVal a "a") = true → isNullish (getVal b "a") = true) := by
  have hs : sortedData ⟨some "a", Dir.desc⟩
        [[("a", Value.vnum 1), ("b", Value.vstr "x")],
         [("a", Value.vnull), ("b", Value.vstr "y")]] =
      [[("a", Value.vnull), ("b", Value.vstr "y")],
       [("a", Value.vnum 1), ("b", Value.vstr "x")]] := by
    rw [sortedData_some _ _ _ (by decide), mergeSort_pair]
    decide
  refine ⟨hs, ?_⟩
  rw [hs]
  decide

/-- C2 amended: for every row sequence and every non-empty sort column
key (an empty-string key is falsy and performs no sort at all), the
ascending sort places every row with a null/absent value in that column
after all rows with defined values, while the descending sort places
them before all rows with defined values — null position follows the
sort direction rather than being always-last. -/
theorem sortedData_nulls_follow_direction (data : List Row) (k : String) (hk : k ≠ "") :
    (sortedData ⟨some k, Dir.asc⟩ data).Pairwise
      (fun a b => isNullish (getVal a k) = true → isNullish (getVal b k) = true) ∧
    (sortedData ⟨some k, Dir.desc⟩ data).Pairwise
      (fun a b => isNullish (getVal b k) = true → isNullish (getVal a k) = true) := by
  have hasc := sortedData_some k Dir.asc data hk
  have hdesc := sortedData_some k Dir.desc data hk
  constructor
  · rw [hasc]
    apply mergeSort_pairwise_imp
    · intro a b c hab hbc hna
      exact hbc (hab hna)
    · intro a b hle hna
      by_cases hb : isNullish (getVal b k) = true
      · exact hb
      · exfalso
        have hb' : isNullish (getVal b k) = false := by
          revert hb
          cases isNullish (getVal b k) <;> simp
        have hc := jsCompareVal_null_left Dir.asc _ _ hna hb'
        unfold jsCompare at hle
        rw [hc] at hle
        simp at hle
    · intro a b hle hnb
      by_cases ha : isNullish (getVal a k) = true
      · exact ha
      · exfalso
        have ha' : isNullish (getVal a k) = false := by
          revert ha
          cases isNullish (getVal a k) <;> simp
        have hc := jsCompareVal_null_right Dir.asc _ _ ha' hnb
        unfold jsCompare at hle
        rw [hc] at hle
        simp at hle
  · rw [hdesc]
    apply mergeSort_pairwise_imp
    · intro a b c hab hbc hnc
      exact hab (hbc hnc)
    · intro a b hle hnb
      by_cases ha : isNullish (getVal a k) = true
      · exact ha
      · exfalso
        have ha' : isNullish (getVal a k) = false := by
          revert ha
          cases isNullish (getVal a k) <;> simp
        have hc := jsCompareVal_null_right Dir.desc _ _ ha' hnb
        unfold jsCompare at hle
        rw [hc] at hle
        simp at hle
    · intro a b hle hna
      by_cases hb : isNullish (getVal b k) = true
      · exact hb
      · exfalso
        have hb' : isNullish (getVal b k) = false := by
          revert hb
          cases isNullish (getVal b k) <;> simp
        have hc := jsCompareVal_null_left Dir.desc _ _ hna hb'
        unfold jsCompare at hle
        rw [hc] at hle
        simp at hle

/-- C2 amended witness: for the non-empty key `"a"` on a concrete mixed
table, the ascending order keeps nulls after defined values and the
descending order keeps nulls before defined values. -/
theorem sortedData_nulls_follow_direction_witness :
    (sortedData ⟨some "a", Dir.asc⟩
        [[("a", Value.vnull)], [("a", Value.vnum 1)]]).Pairwise
      (fun a b => isNullish (getVal a "a") = true → isNullish (getVal b "a") = true) ∧
    (sortedData ⟨some "a", Dir.desc⟩
        [[("a", Value.vnull)], [("a", Value.vnum 1)]]).Pairwise
      (fun a b => isNullish (getVal b "a") = true → isNullish (getVal a "a") = true) :=
  sortedData_nulls_follow_direction [[("a", Value.vnull)], [("a", Value.vnum 1)]] "a"
    (by decide)

end DwhChatbot
